import Mathlib

/-!
Shallow embedding of the proof orchestration and aggregation layer of the
scroll zkevm prover: the Prover's outer-circuit APIs
(src/zkevm/src/prover/outer_circuit.rs) and the CLI driver's proving section
(src/bin/src/prove.rs).

External capabilities (snark-verifier-sdk, halo2 backend, serde, the inner
circuit prover and the filesystem) are opaque to this layer; they are modelled
as arbitrary deterministic functions collected in a `Backend` record (and a
filesystem function where needed), and all theorems quantify over them.
Machine data (`u8` bytes, handles) is modelled as `Nat`; a `&mut impl Rng`
randomness stream is modelled as an explicit state: an infinite byte stream
plus a cursor. Panics (`panic!`, `assert!`, `expect`/`unwrap`) are a distinct
outcome constructor, separate from recoverable `anyhow::Result` errors.
Observable actions (randomness draws, backend invocations, the log line) are
recorded in an event trace so that ordering and "never invoked" properties can
be stated.
-/

namespace ZkEvm

/-- Opaque byte value (a `u8` in the source). -/
abbrev Byte := Nat

/-- Opaque handle for a KZG parameter set (`Params`), external to this layer. -/
abbrev Params := Nat

/-- Opaque snark handle (proof plus its public instance), reusable as
aggregation-circuit input (`Snark` of snark-verifier-sdk). -/
abbrev Snark := Nat

/-- Opaque handle for the aggregation proving key (`ProvingKey`). -/
abbrev ProvingKey := Nat

/-- Opaque handle for a verification key (`VerifyingKey`). -/
abbrev VerifyingKey := Nat

/-- Opaque handle for a constructed `AggregationCircuit` value. -/
abbrev AggregationCircuit := Nat

/-- Opaque block execution trace (`BlockTrace` of the types crate); immutable
value data, so `.clone()` is the identity in this embedding. -/
abbrev BlockTrace := Nat

/-- Public instances of a circuit: columns of field elements
(`Vec<Vec<Fr>>` returned by `CircuitExt::instances`). -/
abbrev Instances := List (List Nat)

/-- Opaque serialized form produced by `serialize_fr_tensor`. -/
abbrev FrTensorSerde := Nat

/-- The state of a `&mut impl Rng` randomness stream: an infinite stream of
bytes it will emit, plus the cursor of how many bytes were already consumed. -/
structure RngState where
  bytes : Nat → Byte
  pos : Nat

/-- Model of `rng.fill_bytes(&mut buf)` for a buffer of `n` bytes: returns the
next `n` bytes of the stream and advances the cursor irreversibly. -/
def RngState.fillBytes (r : RngState) (n : Nat) : List Byte × RngState :=
  ((List.range n).map (fun i => r.bytes (r.pos + i)), { r with pos := r.pos + n })

/-- A deterministic sub-stream handle: `XorShiftRng::from_seed(seed)` is a pure
function of its 16-byte seed, so the handle is identified by that seed. -/
structure XorShiftRng where
  seed : List Byte
  deriving DecidableEq

/-- Model of `XorShiftRng::from_seed`. -/
def XorShiftRng.from_seed (s : List Byte) : XorShiftRng := ⟨s⟩

/-- The circuit capabilities named by the driver and the batch entry point
(`EvmCircuit`, `StateCircuit`, `SuperCircuit`). -/
inductive Circuit where
  | evm
  | state
  | super
  deriving DecidableEq

/-- Inner proof record (`TargetCircuitProof`): proof bytes, the reusable snark
handle, and the batch accounting counters. -/
structure TargetCircuitProof where
  proof : List Byte
  snark : Snark
  num_of_proved_blocks : Nat
  total_num_of_blocks : Nat
  deriving DecidableEq

/-- Terminal aggregation artifact (`AggCircuitProof`): proof bytes, serialized
public instances, serialized verification key, and the proved-block total.
(The source field named `instance` is spelled `instance_bytes` here because
`instance` is reserved in Lean.) -/
structure AggCircuitProof where
  proof : List Byte
  instance_bytes : List Byte
  vk : List Byte
  total_proved_block_count : Nat
  deriving DecidableEq

/-- Error taxonomy for `anyhow::Result` values crossing this layer's boundary:
I/O failures, serde deserialization failures, proving-backend failures, and
the spec's `NotConfigured` configuration error (never constructed by the
code under analysis, but needed to state claims about it). -/
inductive ProverError where
  | io (msg : String)
  | deserialize (msg : String)
  | proving (msg : String)
  | notConfigured
  deriving DecidableEq

/-- Outcome of a call: a normal return value, a recoverable `Err` value, or a
process-terminating panic with its message. -/
inductive Outcome (α : Type) where
  | ok (a : α)
  | error (e : ProverError)
  | panic (msg : String)
  deriving DecidableEq

/-- Observable actions of the aggregation path, recorded in order. -/
inductive Event where
  | fillBytes (bytes : List Byte)
  | proveInner (c : Circuit) (traces : List BlockTrace)
  | buildAggCircuit (snarks : List Snark) (r : XorShiftRng)
  | genProof (r : XorShiftRng)
  | logInfo (proved total : Nat)
  deriving DecidableEq

/-- The opaque external capabilities consumed by this layer, each modelled as
an arbitrary deterministic function. Theorems quantify over the whole record,
so nothing is assumed about the backend's behaviour. -/
structure Backend where
  aggregation_circuit_new : Params → List Snark → XorShiftRng → AggregationCircuit
  circuit_instances : AggregationCircuit → Instances
  gen_evm_proof_shplonk :
    Params → ProvingKey → AggregationCircuit → Instances → XorShiftRng → List Byte
  get_vk : ProvingKey → VerifyingKey
  serialize_fr_tensor : List Instances → FrTensorSerde
  serde_json_to_vec : FrTensorSerde → Except String (List Byte)
  serialize_vk : VerifyingKey → List Byte
  prove_inner_circuit :
    Circuit → List BlockTrace → RngState → Except ProverError TargetCircuitProof × RngState
  circuit_name : Circuit → String
  serde_json_from_reader : List Byte → Except String TargetCircuitProof

/-- The Prover's own state: the two parameter sets, the optional aggregation
proving key, and the (possibly empty) debug directory. The randomness stream
is an explicit argument of each outer-circuit method, matching the
`rng: &mut (impl Rng + Send)` parameters of the source. -/
structure Prover where
  params : Params
  agg_params : Params
  agg_pk : Option ProvingKey
  debug_dir : String
  deriving DecidableEq

/-- Result of one outer-circuit call: the outcome, the trace of observable
actions, and the randomness stream's final state. -/
structure ProverCall (α : Type) where
  result : Outcome α
  events : List Event
  rng : RngState

/-- Embedding of `Prover::create_agg_circuit_proof_impl`, statement by
statement: draw `seed1` then `seed2` (16 bytes each) from the parent stream,
derive `rng1` and `rng2` via `XorShiftRng::from_seed`, build the aggregation
circuit from the inner snark handles with `rng1`, panic if `agg_pk` is unset,
run `gen_evm_proof_shplonk` with `rng2`, sum the two accounting counters,
serialize instances and the verification key, log proved/total, and assemble
the `AggCircuitProof`. -/
def Prover.create_agg_circuit_proof_impl (b : Backend) (self : Prover)
    (inner_circuit_results : List TargetCircuitProof) (rng : RngState) :
    ProverCall AggCircuitProof :=
  let d1 := rng.fillBytes 16
  let seed1 := d1.1
  let d2 := d1.2.fillBytes 16
  let seed2 := d2.1
  let rng' := d2.2
  let rng1 := XorShiftRng.from_seed seed1
  let rng2 := XorShiftRng.from_seed seed2
  let snarks := inner_circuit_results.map (fun p => p.snark)
  let agg_circuit := b.aggregation_circuit_new self.agg_params snarks rng1
  let events := [Event.fillBytes seed1, Event.fillBytes seed2,
                 Event.buildAggCircuit snarks rng1]
  match self.agg_pk with
  | none =>
    { result := Outcome.panic "aggregation proving key is not found",
      events := events, rng := rng' }
  | some pk =>
    let agg_proof := b.gen_evm_proof_shplonk self.agg_params pk agg_circuit
      (b.circuit_instances agg_circuit) rng2
    let events := events ++ [Event.genProof rng2]
    let total_proved_block_count :=
      (inner_circuit_results.map (fun x => x.num_of_proved_blocks)).sum
    let total_block_count :=
      (inner_circuit_results.map (fun x => x.total_num_of_blocks)).sum
    let instances_for_serde := b.serialize_fr_tensor [b.circuit_instances agg_circuit]
    match b.serde_json_to_vec instances_for_serde with
    | Except.error e =>
      { result := Outcome.error (ProverError.io e), events := events, rng := rng' }
    | Except.ok instance_bytes =>
      let vk_bytes := b.serialize_vk (b.get_vk pk)
      let events := events ++ [Event.logInfo total_proved_block_count total_block_count]
      { result := Outcome.ok
          { proof := agg_proof, instance_bytes := instance_bytes, vk := vk_bytes,
            total_proved_block_count := total_proved_block_count },
        events := events, rng := rng' }

/-- Embedding of `Prover::create_agg_circuit_proof_batch`: prove the inner
super circuit over the whole trace slice (the `?` operator propagates its
error), wrap the single result in a one-element vector, and delegate to
`create_agg_circuit_proof_impl`. -/
def Prover.create_agg_circuit_proof_batch (b : Backend) (self : Prover)
    (block_traces : List BlockTrace) (rng : RngState) : ProverCall AggCircuitProof :=
  match b.prove_inner_circuit Circuit.super block_traces rng with
  | (Except.error e, rng') =>
    { result := Outcome.error e,
      events := [Event.proveInner Circuit.super block_traces], rng := rng' }
  | (Except.ok p, rng') =>
    let inner := Prover.create_agg_circuit_proof_impl b self [p] rng'
    { result := inner.result,
      events := Event.proveInner Circuit.super block_traces :: inner.events,
      rng := inner.rng }

/-- Embedding of `Prover::create_agg_circuit_proof`: delegates to the batch
entry point on the one-element slice `&[block_trace.clone()]` (cloning an
immutable value is the identity here). -/
def Prover.create_agg_circuit_proof (b : Backend) (self : Prover)
    (block_trace : BlockTrace) (rng : RngState) : ProverCall AggCircuitProof :=
  Prover.create_agg_circuit_proof_batch b self [block_trace] rng

/-- Embedding of `Prover::load_aggregation_circuit_instance`: asserts the
debug directory is non-empty (an `assert!`, i.e. a panic when it fails),
builds the file name from the directory and the circuit's identifier, opens
the file (an `IoError` on failure) and deserializes it (a `DeserializeError`
on failure). The filesystem is an opaque function from file name to contents. -/
def Prover.load_aggregation_circuit_instance (b : Backend) (self : Prover)
    (c : Circuit) (fs : String → Except String (List Byte)) :
    Outcome TargetCircuitProof :=
  if self.debug_dir = "" then
    Outcome.panic "assertion failed: !self.debug_dir.is_empty()"
  else
    let file_name := self.debug_dir ++ "/" ++ b.circuit_name c ++ "_proof.json"
    match fs file_name with
    | Except.error e => Outcome.error (ProverError.io e)
    | Except.ok contents =>
      match b.serde_json_from_reader contents with
      | Except.error e => Outcome.error (ProverError.deserialize e)
      | Except.ok proof => Outcome.ok proof

/-- The first 16 bytes the parent stream will emit from its current cursor. -/
def subSeedA (rng : RngState) : List Byte :=
  (List.range 16).map (fun i => rng.bytes (rng.pos + i))

/-- The following 16 bytes of the parent stream (positions 16 to 31 past the
cursor). -/
def subSeedB (rng : RngState) : List Byte :=
  (List.range 16).map (fun i => rng.bytes (rng.pos + 16 + i))

/-- The three proof flags of the driver's argument record (prove.rs `Args`):
each is `Option<bool>`, where presence requests proving and the boolean
requests writing the proof to disk. -/
structure Args where
  evm_proof : Option Bool
  state_proof : Option Bool
  agg_proof : Option Bool
  deriving DecidableEq

/-- Observable actions of the driver's proving section. -/
inductive DriverEvent where
  | proveEvm
  | writeEvm
  | proveState
  | writeState
  | proveAgg
  | writeAgg
  deriving DecidableEq

/-- The driver's external collaborators for the proving section: the outcome
each prover call would produce (the prover owns its randomness stream in
prove.rs, so these are functions of nothing further), and whether filesystem
writes succeed (`File::create`/`write_all`/`create_dir_all` are all
`.unwrap()`ed, so a failing write is a panic). -/
structure DriverEnv where
  evm_result : Except String (List Byte)
  state_result : Except String (List Byte)
  agg_result : Except String AggCircuitProof
  write_ok : Bool

/-- Result of the driver's proving section: final outcome plus event trace. -/
structure DriverRun where
  result : Outcome Unit
  events : List DriverEvent

/-- The `--agg` block of prove.rs `main`: if the flag is present, generate the
aggregation proof (`expect` panics on failure), and if its boolean is true,
create the output directory and write the proof artifacts. -/
def driver_agg_stage (env : DriverEnv) (args : Args) (ev : List DriverEvent) :
    DriverRun :=
  match args.agg_proof with
  | none => { result := Outcome.ok (), events := ev }
  | some out_agg =>
    match env.agg_result with
    | Except.error _ =>
      { result := Outcome.panic "cannot generate agg_proof",
        events := ev ++ [DriverEvent.proveAgg] }
    | Except.ok _ =>
      if out_agg then
        if env.write_ok then
          { result := Outcome.ok (),
            events := ev ++ [DriverEvent.proveAgg, DriverEvent.writeAgg] }
        else
          { result := Outcome.panic "called unwrap on an Err value",
            events := ev ++ [DriverEvent.proveAgg] }
      else
        { result := Outcome.ok (), events := ev ++ [DriverEvent.proveAgg] }

/-- The `--state` block of prove.rs `main`, followed by the `--agg` block. -/
def driver_state_stage (env : DriverEnv) (args : Args) (ev : List DriverEvent) :
    DriverRun :=
  match args.state_proof with
  | none => driver_agg_stage env args ev
  | some out_state =>
    match env.state_result with
    | Except.error _ =>
      { result := Outcome.panic "cannot generate state_proof",
        events := ev ++ [DriverEvent.proveState] }
    | Except.ok _ =>
      if out_state then
        if env.write_ok then
          driver_agg_stage env args (ev ++ [DriverEvent.proveState, DriverEvent.writeState])
        else
          { result := Outcome.panic "called unwrap on an Err value",
            events := ev ++ [DriverEvent.proveState] }
      else
        driver_agg_stage env args (ev ++ [DriverEvent.proveState])

/-- The proving section of prove.rs `main`: the `--evm` block, then the
`--state` block, then the `--agg` block, each executed exactly when its flag
is present, each writing its proof exactly when the flag's boolean is true,
and each aborting the whole run (panic via `expect`) when its prover call
fails. -/
def driver_prove (env : DriverEnv) (args : Args) : DriverRun :=
  match args.evm_proof with
  | none => driver_state_stage env args []
  | some out_evm =>
    match env.evm_result with
    | Except.error _ =>
      { result := Outcome.panic "cannot generate evm_proof",
        events := [DriverEvent.proveEvm] }
    | Except.ok _ =>
      if out_evm then
        if env.write_ok then
          driver_state_stage env args [DriverEvent.proveEvm, DriverEvent.writeEvm]
        else
          { result := Outcome.panic "called unwrap on an Err value",
            events := [DriverEvent.proveEvm] }
      else
        driver_state_stage env args [DriverEvent.proveEvm]

/-- All three prover calls available to the driver succeed and filesystem
writes succeed: the fault-free environment of a normal run. -/
def DriverEnv.allOk (env : DriverEnv) : Prop :=
  (∃ x, env.evm_result = Except.ok x) ∧ (∃ x, env.state_result = Except.ok x) ∧
  (∃ x, env.agg_result = Except.ok x) ∧ env.write_ok = true

/-- Erase the attempted-block counter of an inner result, leaving the proof
bytes, the snark handle and the proved counter intact. Used to state that the
attempted total is not persisted in the aggregation artifact. -/
def zeroTotals (p : TargetCircuitProof) : TargetCircuitProof :=
  { p with total_num_of_blocks := 0 }

/-- Concrete backend with trivial external capabilities, for evaluating the
embedding at concrete inputs. -/
def backend0 : Backend where
  aggregation_circuit_new := fun _ _ _ => 0
  circuit_instances := fun _ => [[1, 2]]
  gen_evm_proof_shplonk := fun _ _ _ _ _ => [3]
  get_vk := fun _ => 0
  serialize_fr_tensor := fun _ => 0
  serde_json_to_vec := fun _ => Except.ok [4]
  serialize_vk := fun _ => [5]
  prove_inner_circuit := fun _ _ r => (Except.ok ⟨[6], 9, 1, 1⟩, r)
  circuit_name := fun _ => "super"
  serde_json_from_reader := fun _ => Except.ok ⟨[6], 9, 1, 1⟩

/-- Concrete backend whose inner-circuit prover fails. -/
def backendErr : Backend :=
  { backend0 with
    prove_inner_circuit := fun _ _ r => (Except.error (ProverError.proving "inner"), r) }

/-- Concrete all-zero randomness stream at cursor zero. -/
def rng0 : RngState := { bytes := fun _ => 0, pos := 0 }

/-- Concrete prover with a proving key and a debug directory configured. -/
def prover0 : Prover :=
  { params := 0, agg_params := 0, agg_pk := some 7, debug_dir := "dbg" }

/-- Concrete prover differing from `prover0` only in fields irrelevant to
aggregation (target params and debug directory). -/
def prover1 : Prover :=
  { params := 5, agg_params := 0, agg_pk := some 7, debug_dir := "other" }

/-- Concrete prover with no aggregation proving key configured. -/
def proverNoPk : Prover :=
  { params := 0, agg_params := 0, agg_pk := none, debug_dir := "dbg" }

/-- Concrete prover with no debug directory configured. -/
def proverNoDir : Prover :=
  { params := 0, agg_params := 0, agg_pk := some 7, debug_dir := "" }

/-- Concrete inner proof result: one block attempted, one proved. -/
def tcp0 : TargetCircuitProof := ⟨[6], 9, 1, 1⟩

/-- Concrete filesystem holding some bytes under every name. -/
def fs0 : String → Except String (List Byte) := fun _ => Except.ok [6]

/-- Unfolding lemma for the missing-key path of
`create_agg_circuit_proof_impl`: both sub-seeds are drawn and the aggregation
circuit is built, then the call panics at the proving-key check; backend proof
generation never appears in the trace. -/
theorem agg_impl_none_spec (b : Backend) (self : Prover)
    (inner : List TargetCircuitProof) (rng : RngState) (h : self.agg_pk = none) :
    Prover.create_agg_circuit_proof_impl b self inner rng =
      { result := Outcome.panic "aggregation proving key is not found",
        events := [Event.fillBytes (subSeedA rng), Event.fillBytes (subSeedB rng),
                   Event.buildAggCircuit (inner.map (fun p => p.snark))
                     (XorShiftRng.from_seed (subSeedA rng))],
        rng := { rng with pos := rng.pos + 16 + 16 } } := by
  unfold Prover.create_agg_circuit_proof_impl
  rw [h]
  rfl

/-- Unfolding lemma for the successful path of
`create_agg_circuit_proof_impl`: with a proving key present and instance
serialization succeeding, the call returns the assembled artifact and the full
event trace. -/
theorem agg_impl_ok_spec (b : Backend) (self : Prover)
    (inner : List TargetCircuitProof) (rng : RngState) (pk : ProvingKey)
    (h : self.agg_pk = some pk) (bs : List Byte)
    (hs : b.serde_json_to_vec (b.serialize_fr_tensor [b.circuit_instances
        (b.aggregation_circuit_new self.agg_params (inner.map (fun p => p.snark))
          (XorShiftRng.from_seed (subSeedA rng)))]) = Except.ok bs) :
    Prover.create_agg_circuit_proof_impl b self inner rng =
      { result := Outcome.ok
          { proof := b.gen_evm_proof_shplonk self.agg_params pk
              (b.aggregation_circuit_new self.agg_params (inner.map (fun p => p.snark))
                (XorShiftRng.from_seed (subSeedA rng)))
              (b.circuit_instances
                (b.aggregation_circuit_new self.agg_params (inner.map (fun p => p.snark))
                  (XorShiftRng.from_seed (subSeedA rng))))
              (XorShiftRng.from_seed (subSeedB rng)),
            instance_bytes := bs,
            vk := b.serialize_vk (b.get_vk pk),
            total_proved_block_count :=
              (inner.map (fun x => x.num_of_proved_blocks)).sum },
        events := [Event.fillBytes (subSeedA rng), Event.fillBytes (subSeedB rng),
                   Event.buildAggCircuit (inner.map (fun p => p.snark))
                     (XorShiftRng.from_seed (subSeedA rng)),
                   Event.genProof (XorShiftRng.from_seed (subSeedB rng)),
                   Event.logInfo ((inner.map (fun x => x.num_of_proved_blocks)).sum)
                     ((inner.map (fun x => x.total_num_of_blocks)).sum)],
        rng := { rng with pos := rng.pos + 16 + 16 } } := by
  unfold Prover.create_agg_circuit_proof_impl
  rw [h]
  simp only [subSeedA, subSeedB] at hs
  simp [RngState.fillBytes, hs, subSeedA, subSeedB]

/-- Unfolding lemma for the serialization-failure path of
`create_agg_circuit_proof_impl`: with a proving key present and instance
serialization failing, the call returns an I/O error after proof generation. -/
theorem agg_impl_serde_err_spec (b : Backend) (self : Prover)
    (inner : List TargetCircuitProof) (rng : RngState) (pk : ProvingKey)
    (h : self.agg_pk = some pk) (msg : String)
    (hs : b.serde_json_to_vec (b.serialize_fr_tensor [b.circuit_instances
        (b.aggregation_circuit_new self.agg_params (inner.map (fun p => p.snark))
          (XorShiftRng.from_seed (subSeedA rng)))]) = Except.error msg) :
    Prover.create_agg_circuit_proof_impl b self inner rng =
      { result := Outcome.error (ProverError.io msg),
        events := [Event.fillBytes (subSeedA rng), Event.fillBytes (subSeedB rng),
                   Event.buildAggCircuit (inner.map (fun p => p.snark))
                     (XorShiftRng.from_seed (subSeedA rng)),
                   Event.genProof (XorShiftRng.from_seed (subSeedB rng))],
        rng := { rng with pos := rng.pos + 16 + 16 } } := by
  unfold Prover.create_agg_circuit_proof_impl
  rw [h]
  simp only [subSeedA, subSeedB] at hs
  simp [RngState.fillBytes, hs, subSeedA, subSeedB]

/-- Shared inversion lemma: whenever `create_agg_circuit_proof_impl` returns
an artifact, its `total_proved_block_count` is the sum, in input order, of the
inner results' proved counts. -/
theorem agg_impl_result_ok_total (b : Backend) (self : Prover)
    (inner : List TargetCircuitProof) (rng : RngState) (a : AggCircuitProof)
    (ha : (Prover.create_agg_circuit_proof_impl b self inner rng).result = Outcome.ok a) :
    a.total_proved_block_count = (inner.map (fun x => x.num_of_proved_blocks)).sum := by
  cases hpk : self.agg_pk with
  | none =>
    rw [agg_impl_none_spec b self inner rng hpk] at ha
    simp at ha
  | some pk =>
    cases hs : b.serde_json_to_vec (b.serialize_fr_tensor [b.circuit_instances
        (b.aggregation_circuit_new self.agg_params (inner.map (fun p => p.snark))
          (XorShiftRng.from_seed (subSeedA rng)))]) with
    | error msg =>
      rw [agg_impl_serde_err_spec b self inner rng pk hpk msg hs] at ha
      simp at ha
    | ok bs =>
      rw [agg_impl_ok_spec b self inner rng pk hpk bs hs] at ha
      simp only [Outcome.ok.injEq] at ha
      rw [← ha]

/-- Concrete aggregation artifact produced by `backend0` on `[tcp0]`. -/
def aggOut0 : AggCircuitProof :=
  { proof := [3], instance_bytes := [4], vk := [5], total_proved_block_count := 1 }

/-- C1: every call to `create_agg_circuit_proof_impl` first draws sub-seed 1
(the next 16 bytes, i.e. 128 bits, of the parent randomness stream), then
sub-seed 2 (the following 16 bytes), both before either derived sub-stream is
used; sub-stream 1 (`XorShiftRng::from_seed` of sub-seed 1) is used exactly
once, to construct the aggregation circuit from the inner proofs' snark
handles, sub-stream 2 exactly once, as the randomness of the final
proof-generation call, and the only event that may follow is the log line,
which uses no randomness. -/
theorem agg_impl_randomness_partition (b : Backend) (self : Prover)
    (inner : List TargetCircuitProof) (rng : RngState) (pk : ProvingKey)
    (hpk : self.agg_pk = some pk) :
    (Prover.create_agg_circuit_proof_impl b self inner rng).events.take 4 =
      [Event.fillBytes (subSeedA rng), Event.fillBytes (subSeedB rng),
       Event.buildAggCircuit (inner.map (fun p => p.snark))
         (XorShiftRng.from_seed (subSeedA rng)),
       Event.genProof (XorShiftRng.from_seed (subSeedB rng))] ∧
    ∀ e ∈ (Prover.create_agg_circuit_proof_impl b self inner rng).events.drop 4,
      ∃ p t, e = Event.logInfo p t := by
  cases hs : b.serde_json_to_vec (b.serialize_fr_tensor [b.circuit_instances
      (b.aggregation_circuit_new self.agg_params (inner.map (fun p => p.snark))
        (XorShiftRng.from_seed (subSeedA rng)))]) with
  | error msg =>
    rw [agg_impl_serde_err_spec b self inner rng pk hpk msg hs]
    refine ⟨rfl, ?_⟩
    intro e he
    simp at he
  | ok bs =>
    rw [agg_impl_ok_spec b self inner rng pk hpk bs hs]
    refine ⟨rfl, ?_⟩
    intro e he
    simp at he
    exact ⟨_, _, he⟩

/-- Witness for C1 at a concrete backend, prover, inner result and stream. -/
theorem agg_impl_randomness_partition_witness :
    (Prover.create_agg_circuit_proof_impl backend0 prover0 [tcp0] rng0).events.take 4 =
      [Event.fillBytes (subSeedA rng0), Event.fillBytes (subSeedB rng0),
       Event.buildAggCircuit ([tcp0].map (fun p => p.snark))
         (XorShiftRng.from_seed (subSeedA rng0)),
       Event.genProof (XorShiftRng.from_seed (subSeedB rng0))] :=
  (agg_impl_randomness_partition backend0 prover0 [tcp0] rng0 7 rfl).1

/-- C2: the artifact's `total_proved_block_count` is the sum, in input order,
of the inner results' proved counts; the attempted total appears in the log
event and is not persisted: zeroing every attempted counter leaves the
returned artifact unchanged. -/
theorem agg_impl_batch_accounting (b : Backend) (self : Prover)
    (inner : List TargetCircuitProof) (rng : RngState) :
    (∀ a, (Prover.create_agg_circuit_proof_impl b self inner rng).result = Outcome.ok a →
      a.total_proved_block_count = (inner.map (fun x => x.num_of_proved_blocks)).sum ∧
      Event.logInfo ((inner.map (fun x => x.num_of_proved_blocks)).sum)
        ((inner.map (fun x => x.total_num_of_blocks)).sum) ∈
        (Prover.create_agg_circuit_proof_impl b self inner rng).events) ∧
    (Prover.create_agg_circuit_proof_impl b self (inner.map zeroTotals) rng).result =
      (Prover.create_agg_circuit_proof_impl b self inner rng).result := by
  have hsn : (inner.map zeroTotals).map (fun p => p.snark) = inner.map (fun p => p.snark) := by
    simp [zeroTotals, List.map_map, Function.comp]
  have hpr : (inner.map zeroTotals).map (fun x => x.num_of_proved_blocks)
      = inner.map (fun x => x.num_of_proved_blocks) := by
    simp [zeroTotals, List.map_map, Function.comp]
  constructor
  · intro a ha
    refine ⟨agg_impl_result_ok_total b self inner rng a ha, ?_⟩
    cases hpk : self.agg_pk with
    | none =>
      rw [agg_impl_none_spec b self inner rng hpk] at ha
      simp at ha
    | some pk =>
      cases hs : b.serde_json_to_vec (b.serialize_fr_tensor [b.circuit_instances
          (b.aggregation_circuit_new self.agg_params (inner.map (fun p => p.snark))
            (XorShiftRng.from_seed (subSeedA rng)))]) with
      | error msg =>
        rw [agg_impl_serde_err_spec b self inner rng pk hpk msg hs] at ha
        simp at ha
      | ok bs =>
        rw [agg_impl_ok_spec b self inner rng pk hpk bs hs]
        simp
  · cases hpk : self.agg_pk with
    | none =>
      rw [agg_impl_none_spec b self (inner.map zeroTotals) rng hpk,
          agg_impl_none_spec b self inner rng hpk]
    | some pk =>
      cases hs : b.serde_json_to_vec (b.serialize_fr_tensor [b.circuit_instances
          (b.aggregation_circuit_new self.agg_params (inner.map (fun p => p.snark))
            (XorShiftRng.from_seed (subSeedA rng)))]) with
      | error msg =>
        rw [agg_impl_serde_err_spec b self inner rng pk hpk msg hs,
            agg_impl_serde_err_spec b self (inner.map zeroTotals) rng pk hpk msg
              (by rw [hsn]; exact hs)]
      | ok bs =>
        rw [agg_impl_ok_spec b self inner rng pk hpk bs hs,
            agg_impl_ok_spec b self (inner.map zeroTotals) rng pk hpk bs
              (by rw [hsn]; exact hs)]
        simp [hsn, hpr]

/-- Witness for C2 at a concrete backend, prover, inner result and stream. -/
theorem agg_impl_batch_accounting_witness :
    aggOut0.total_proved_block_count = ([tcp0].map (fun x => x.num_of_proved_blocks)).sum ∧
    (Prover.create_agg_circuit_proof_impl backend0 prover0 ([tcp0].map zeroTotals) rng0).result =
      (Prover.create_agg_circuit_proof_impl backend0 prover0 [tcp0] rng0).result :=
  ⟨((agg_impl_batch_accounting backend0 prover0 [tcp0] rng0).1 aggOut0 (by decide)).1,
   (agg_impl_batch_accounting backend0 prover0 [tcp0] rng0).2⟩

/-- C3: when every inner result satisfies `proved_count <= total_count`, the
artifact's proved total equals the sum of the proved counts and does not
exceed the sum of the attempted counts. -/
theorem agg_impl_accounting_invariant (b : Backend) (self : Prover)
    (inner : List TargetCircuitProof) (rng : RngState)
    (hle : ∀ p ∈ inner, p.num_of_proved_blocks ≤ p.total_num_of_blocks)
    (a : AggCircuitProof)
    (ha : (Prover.create_agg_circuit_proof_impl b self inner rng).result = Outcome.ok a) :
    a.total_proved_block_count = (inner.map (fun x => x.num_of_proved_blocks)).sum ∧
    a.total_proved_block_count ≤ (inner.map (fun x => x.total_num_of_blocks)).sum := by
  have h := agg_impl_result_ok_total b self inner rng a ha
  exact ⟨h, h ▸ List.sum_le_sum hle⟩

/-- Witness for C3 at a concrete backend, prover, inner result and stream. -/
theorem agg_impl_accounting_invariant_witness :
    aggOut0.total_proved_block_count = ([tcp0].map (fun x => x.num_of_proved_blocks)).sum ∧
    aggOut0.total_proved_block_count ≤ ([tcp0].map (fun x => x.total_num_of_blocks)).sum :=
  agg_impl_accounting_invariant backend0 prover0 [tcp0] rng0 (by decide) aggOut0 (by decide)

/-- C4: with no aggregation proving key set, `create_agg_circuit_proof_impl`
panics with the key-not-found message and in particular does not return a
recoverable error value. -/
theorem agg_impl_missing_key_panics (b : Backend) (self : Prover)
    (inner : List TargetCircuitProof) (rng : RngState) (h : self.agg_pk = none) :
    (Prover.create_agg_circuit_proof_impl b self inner rng).result =
      Outcome.panic "aggregation proving key is not found" ∧
    ∀ e, (Prover.create_agg_circuit_proof_impl b self inner rng).result ≠ Outcome.error e := by
  rw [agg_impl_none_spec b self inner rng h]
  exact ⟨rfl, fun e => by simp⟩

/-- Witness for C4 at a concrete backend, prover, inner result and stream. -/
theorem agg_impl_missing_key_panics_witness :
    (Prover.create_agg_circuit_proof_impl backend0 proverNoPk [tcp0] rng0).result =
      Outcome.panic "aggregation proving key is not found" ∧
    (Prover.create_agg_circuit_proof_impl backend0 proverNoPk [tcp0] rng0).result ≠
      Outcome.error ProverError.notConfigured :=
  ⟨(agg_impl_missing_key_panics backend0 proverNoPk [tcp0] rng0 rfl).1,
   (agg_impl_missing_key_panics backend0 proverNoPk [tcp0] rng0 rfl).2 ProverError.notConfigured⟩

/-- C5 counterexample: at a concrete call with no proving key configured,
partial computation is attempted before the failure: the aggregation circuit
is built (a backend invocation appears in the trace) and only then does the
call panic, refuting "no partial computation attempted". -/
theorem agg_impl_no_key_counterexample :
    (Prover.create_agg_circuit_proof_impl backend0 proverNoPk [tcp0] rng0).result =
      Outcome.panic "aggregation proving key is not found" ∧
    Event.buildAggCircuit [9] (XorShiftRng.from_seed (List.replicate 16 0)) ∈
      (Prover.create_agg_circuit_proof_impl backend0 proverNoPk [tcp0] rng0).events := by
  decide

/-- C5 amended: with no aggregation proving key configured, the call panics
and the backend proof-generation routine is never invoked (no proof-generation
event over any sub-stream appears in the trace), although randomness is drawn
and the aggregation circuit is constructed before the panic. -/
theorem agg_impl_no_key_no_proof_gen (b : Backend) (self : Prover)
    (inner : List TargetCircuitProof) (rng : RngState) (h : self.agg_pk = none) :
    (Prover.create_agg_circuit_proof_impl b self inner rng).result =
      Outcome.panic "aggregation proving key is not found" ∧
    ∀ r, Event.genProof r ∉ (Prover.create_agg_circuit_proof_impl b self inner rng).events := by
  rw [agg_impl_none_spec b self inner rng h]
  refine ⟨rfl, ?_⟩
  intro r hr
  simp at hr

/-- Witness for the amended C5 at a concrete backend, prover and stream. -/
theorem agg_impl_no_key_no_proof_gen_witness :
    (Prover.create_agg_circuit_proof_impl backend0 proverNoPk [tcp0] rng0).result =
      Outcome.panic "aggregation proving key is not found" ∧
    Event.genProof (XorShiftRng.from_seed (List.replicate 16 0)) ∉
      (Prover.create_agg_circuit_proof_impl backend0 proverNoPk [tcp0] rng0).events :=
  ⟨(agg_impl_no_key_no_proof_gen backend0 proverNoPk [tcp0] rng0 rfl).1,
   (agg_impl_no_key_no_proof_gen backend0 proverNoPk [tcp0] rng0 rfl).2
     (XorShiftRng.from_seed (List.replicate 16 0))⟩

/-- C6: `create_agg_circuit_proof_batch` proves the super circuit over the
whole trace slice to obtain exactly one inner proof, then delegates to
`create_agg_circuit_proof_impl` on the one-element list containing it; an
inner-proving failure is returned unchanged and aggregation is never
attempted (no aggregation-circuit or proof-generation event occurs). -/
theorem agg_batch_composition (b : Backend) (self : Prover)
    (traces : List BlockTrace) (rng : RngState) :
    (∀ e rng', b.prove_inner_circuit Circuit.super traces rng = (Except.error e, rng') →
      (Prover.create_agg_circuit_proof_batch b self traces rng).result = Outcome.error e ∧
      ∀ ev ∈ (Prover.create_agg_circuit_proof_batch b self traces rng).events,
        (∀ s r, ev ≠ Event.buildAggCircuit s r) ∧ ∀ r, ev ≠ Event.genProof r) ∧
    (∀ p rng', b.prove_inner_circuit Circuit.super traces rng = (Except.ok p, rng') →
      (Prover.create_agg_circuit_proof_batch b self traces rng).result =
        (Prover.create_agg_circuit_proof_impl b self [p] rng').result ∧
      (Prover.create_agg_circuit_proof_batch b self traces rng).events =
        Event.proveInner Circuit.super traces ::
          (Prover.create_agg_circuit_proof_impl b self [p] rng').events) := by
  constructor
  · intro e rng' h
    unfold Prover.create_agg_circuit_proof_batch
    rw [h]
    refine ⟨rfl, ?_⟩
    intro ev hev
    simp at hev
    subst hev
    constructor
    · intro s r
      simp
    · intro r
      simp
  · intro p rng' h
    unfold Prover.create_agg_circuit_proof_batch
    rw [h]
    exact ⟨rfl, rfl⟩

/-- Witness for C6: a concrete failing inner prover propagates its error, and
a concrete succeeding inner prover delegates to the aggregation step. -/
theorem agg_batch_composition_witness :
    (Prover.create_agg_circuit_proof_batch backendErr prover0 [0] rng0).result =
      Outcome.error (ProverError.proving "inner") ∧
    (Prover.create_agg_circuit_proof_batch backend0 prover0 [0] rng0).result =
      (Prover.create_agg_circuit_proof_impl backend0 prover0 [tcp0] rng0).result :=
  ⟨((agg_batch_composition backendErr prover0 [0] rng0).1
      (ProverError.proving "inner") rng0 rfl).1,
   ((agg_batch_composition backend0 prover0 [0] rng0).2 tcp0 rng0 rfl).1⟩

/-- Concrete filesystem on which every open fails. -/
def fsErr : String → Except String (List Byte) := fun _ => Except.error "no such file"

/-- Concrete backend whose JSON deserializer fails. -/
def backendBadJson : Backend :=
  { backend0 with serde_json_from_reader := fun _ => Except.error "bad json" }

/-- C7 counterexample: at a concrete call with no debug directory configured,
`load_aggregation_circuit_instance` panics (the `assert!` fails) instead of
returning a recoverable `NotConfigured` error value. -/
theorem load_instance_counterexample :
    Prover.load_aggregation_circuit_instance backend0 proverNoDir Circuit.super fs0 =
      Outcome.panic "assertion failed: !self.debug_dir.is_empty()" ∧
    Prover.load_aggregation_circuit_instance backend0 proverNoDir Circuit.super fs0 ≠
      Outcome.error ProverError.notConfigured := by
  decide

/-- C7 amended: with no debug directory configured the call panics (assertion
failure) rather than returning a `NotConfigured` error; with a debug directory
configured, it reads the file named after the circuit's identifier
(`debug_dir/name_proof.json`) and fails with `IoError` when the file cannot be
opened, with `DeserializeError` when it cannot be parsed, and returns the
stored proof otherwise. -/
theorem load_instance_spec (b : Backend) (self : Prover) (c : Circuit)
    (fs : String → Except String (List Byte)) :
    (self.debug_dir = "" →
      Prover.load_aggregation_circuit_instance b self c fs =
        Outcome.panic "assertion failed: !self.debug_dir.is_empty()") ∧
    (self.debug_dir ≠ "" →
      (∀ e, fs (self.debug_dir ++ "/" ++ b.circuit_name c ++ "_proof.json") =
          Except.error e →
        Prover.load_aggregation_circuit_instance b self c fs =
          Outcome.error (ProverError.io e)) ∧
      (∀ contents, fs (self.debug_dir ++ "/" ++ b.circuit_name c ++ "_proof.json") =
          Except.ok contents →
        (∀ e, b.serde_json_from_reader contents = Except.error e →
          Prover.load_aggregation_circuit_instance b self c fs =
            Outcome.error (ProverError.deserialize e)) ∧
        (∀ p, b.serde_json_from_reader contents = Except.ok p →
          Prover.load_aggregation_circuit_instance b self c fs = Outcome.ok p))) := by
  constructor
  · intro h
    simp [Prover.load_aggregation_circuit_instance, h]
  · intro h
    refine ⟨?_, ?_⟩
    · intro e he
      simp [Prover.load_aggregation_circuit_instance, h, he]
    · intro contents hc
      refine ⟨?_, ?_⟩
      · intro e he
        simp [Prover.load_aggregation_circuit_instance, h, hc, he]
      · intro p hp
        simp [Prover.load_aggregation_circuit_instance, h, hc, hp]

/-- Witness for the amended C7 at concrete provers, filesystems and backends,
covering the panic, the I/O failure, the deserialization failure and the
successful load. -/
theorem load_instance_spec_witness :
    Prover.load_aggregation_circuit_instance backend0 proverNoDir Circuit.evm fs0 =
      Outcome.panic "assertion failed: !self.debug_dir.is_empty()" ∧
    Prover.load_aggregation_circuit_instance backend0 prover0 Circuit.super fsErr =
      Outcome.error (ProverError.io "no such file") ∧
    Prover.load_aggregation_circuit_instance backendBadJson prover0 Circuit.super fs0 =
      Outcome.error (ProverError.deserialize "bad json") ∧
    Prover.load_aggregation_circuit_instance backend0 prover0 Circuit.super fs0 =
      Outcome.ok tcp0 :=
  ⟨(load_instance_spec backend0 proverNoDir Circuit.evm fs0).1 rfl,
   ((load_instance_spec backend0 prover0 Circuit.super fsErr).2 (by decide)).1
     "no such file" rfl,
   (((load_instance_spec backendBadJson prover0 Circuit.super fs0).2 (by decide)).2
     [6] rfl).1 "bad json" rfl,
   (((load_instance_spec backend0 prover0 Circuit.super fs0).2 (by decide)).2
     [6] rfl).2 tcp0 rfl⟩

/-- C8: the outcome of `create_agg_circuit_proof_impl` is a function of the
aggregation parameters, the proving key, the inner results and the
randomness-stream state alone, so two runs with a fixed stream state and fixed
inner results produce byte-identical proof, instance and verification-key
bytes, whatever else differs between the provers. -/
theorem agg_impl_deterministic (b : Backend) (self1 self2 : Prover)
    (hparams : self1.agg_params = self2.agg_params)
    (hpk : self1.agg_pk = self2.agg_pk)
    (inner : List TargetCircuitProof) (rng : RngState) :
    (Prover.create_agg_circuit_proof_impl b self1 inner rng).result =
      (Prover.create_agg_circuit_proof_impl b self2 inner rng).result ∧
    ∀ a1 a2,
      (Prover.create_agg_circuit_proof_impl b self1 inner rng).result = Outcome.ok a1 →
      (Prover.create_agg_circuit_proof_impl b self2 inner rng).result = Outcome.ok a2 →
      a1.proof = a2.proof ∧ a1.instance_bytes = a2.instance_bytes ∧ a1.vk = a2.vk := by
  have h : (Prover.create_agg_circuit_proof_impl b self1 inner rng).result =
      (Prover.create_agg_circuit_proof_impl b self2 inner rng).result := by
    unfold Prover.create_agg_circuit_proof_impl
    rw [hparams, hpk]
  refine ⟨h, ?_⟩
  intro a1 a2 h1 h2
  rw [h, h2] at h1
  simp only [Outcome.ok.injEq] at h1
  subst h1
  exact ⟨rfl, rfl, rfl⟩

/-- Witness for C8: two provers differing only in aggregation-irrelevant
fields (target parameters, debug directory) produce identical results. -/
theorem agg_impl_deterministic_witness :
    (Prover.create_agg_circuit_proof_impl backend0 prover0 [tcp0] rng0).result =
      (Prover.create_agg_circuit_proof_impl backend0 prover1 [tcp0] rng0).result ∧
    aggOut0.proof = aggOut0.proof ∧ aggOut0.instance_bytes = aggOut0.instance_bytes ∧
      aggOut0.vk = aggOut0.vk :=
  ⟨(agg_impl_deterministic backend0 prover0 prover1 rfl rfl [tcp0] rng0).1,
   (agg_impl_deterministic backend0 prover0 prover1 rfl rfl [tcp0] rng0).2
     aggOut0 aggOut0 (by decide) (by decide)⟩

/-- C10: the single-trace entry point `create_agg_circuit_proof` equals the
batch entry point on the one-element slice containing (a clone of) the trace,
with the same randomness stream; the two entry points are equivalent on
singleton inputs. -/
theorem agg_single_refines_batch (b : Backend) (self : Prover)
    (block_trace : BlockTrace) (rng : RngState) :
    Prover.create_agg_circuit_proof b self block_trace rng =
      Prover.create_agg_circuit_proof_batch b self [block_trace] rng := rfl

/-- Events contributed by one driver flag: none when the flag is absent, the
prove event when present, plus the write event when its boolean is true. -/
def flagEvents (o : Option Bool) (p w : DriverEvent) : List DriverEvent :=
  match o with
  | none => []
  | some true => [p, w]
  | some false => [p]

/-- In a fault-free environment the agg stage completes and appends exactly
its flag's events. -/
theorem driver_agg_stage_allOk (env : DriverEnv) (args : Args) (ev : List DriverEvent)
    (h : env.allOk) :
    driver_agg_stage env args ev =
      { result := Outcome.ok (),
        events := ev ++ flagEvents args.agg_proof DriverEvent.proveAgg DriverEvent.writeAgg } := by
  obtain ⟨-, -, ⟨x, h3⟩, h4⟩ := h
  cases hag : args.agg_proof with
  | none => simp [driver_agg_stage, hag, flagEvents]
  | some bq => cases bq <;> simp [driver_agg_stage, hag, flagEvents, h3, h4]

/-- In a fault-free environment the state stage completes and appends exactly
its flag's events followed by the agg stage's. -/
theorem driver_state_stage_allOk (env : DriverEnv) (args : Args) (ev : List DriverEvent)
    (h : env.allOk) :
    driver_state_stage env args ev =
      { result := Outcome.ok (),
        events := (ev ++ flagEvents args.state_proof DriverEvent.proveState DriverEvent.writeState)
          ++ flagEvents args.agg_proof DriverEvent.proveAgg DriverEvent.writeAgg } := by
  obtain ⟨x2, h2⟩ := h.2.1
  have h4 := h.2.2.2
  cases hst : args.state_proof with
  | none =>
    simp [driver_state_stage, hst, flagEvents, driver_agg_stage_allOk env args ev h]
  | some bq =>
    cases bq <;>
      simp [driver_state_stage, hst, flagEvents, h2, h4,
        driver_agg_stage_allOk env args (ev ++ [DriverEvent.proveState]) h,
        driver_agg_stage_allOk env args
          (ev ++ [DriverEvent.proveState, DriverEvent.writeState]) h]

/-- In a fault-free environment the driver's proving section completes and its
trace is exactly the concatenation of the three flags' events, in order. -/
theorem driver_prove_allOk (env : DriverEnv) (args : Args) (h : env.allOk) :
    driver_prove env args =
      { result := Outcome.ok (),
        events := (flagEvents args.evm_proof DriverEvent.proveEvm DriverEvent.writeEvm
            ++ flagEvents args.state_proof DriverEvent.proveState DriverEvent.writeState)
          ++ flagEvents args.agg_proof DriverEvent.proveAgg DriverEvent.writeAgg } := by
  obtain ⟨x1, h1⟩ := h.1
  have h4 := h.2.2.2
  cases hev : args.evm_proof with
  | none =>
    simp [driver_prove, hev, flagEvents, driver_state_stage_allOk env args [] h]
  | some bq =>
    cases bq <;>
      simp [driver_prove, hev, flagEvents, h1, h4,
        driver_state_stage_allOk env args [DriverEvent.proveEvm] h,
        driver_state_stage_allOk env args
          [DriverEvent.proveEvm, DriverEvent.writeEvm] h]

/-- If the agg stage completed normally, a present agg flag implies the agg
prover call succeeded. -/
theorem driver_agg_stage_ok_inv (env : DriverEnv) (args : Args) (ev : List DriverEvent)
    (h : (driver_agg_stage env args ev).result = Outcome.ok ()) :
    args.agg_proof.isSome → ∃ x, env.agg_result = Except.ok x := by
  intro hsome
  cases hag : args.agg_proof with
  | none => simp [hag] at hsome
  | some bq =>
    cases hr : env.agg_result with
    | ok x => exact ⟨x, rfl⟩
    | error e => simp [driver_agg_stage, hag, hr] at h

/-- If the state stage completed normally, every later flagged prover call
succeeded. -/
theorem driver_state_stage_ok_inv (env : DriverEnv) (args : Args) (ev : List DriverEvent)
    (h : (driver_state_stage env args ev).result = Outcome.ok ()) :
    (args.state_proof.isSome → ∃ x, env.state_result = Except.ok x) ∧
    (args.agg_proof.isSome → ∃ x, env.agg_result = Except.ok x) := by
  cases hst : args.state_proof with
  | none =>
    simp only [driver_state_stage, hst] at h
    exact ⟨by simp [hst], driver_agg_stage_ok_inv env args ev h⟩
  | some bq =>
    cases hr : env.state_result with
    | error e => simp [driver_state_stage, hst, hr] at h
    | ok x =>
      refine ⟨fun _ => ⟨x, rfl⟩, ?_⟩
      cases bq with
      | false =>
        simp only [driver_state_stage, hst, hr] at h
        exact driver_agg_stage_ok_inv env args _ h
      | true =>
        cases hw : env.write_ok with
        | false => simp [driver_state_stage, hst, hr, hw] at h
        | true =>
          simp only [driver_state_stage, hst, hr, hw, if_true] at h
          exact driver_agg_stage_ok_inv env args _ h

/-- If the driver's proving section completed normally, every flagged prover
call succeeded (no flagged artifact was skipped over a failure). -/
theorem driver_prove_ok_inv (env : DriverEnv) (args : Args)
    (h : (driver_prove env args).result = Outcome.ok ()) :
    (args.evm_proof.isSome → ∃ x, env.evm_result = Except.ok x) ∧
    (args.state_proof.isSome → ∃ x, env.state_result = Except.ok x) ∧
    (args.agg_proof.isSome → ∃ x, env.agg_result = Except.ok x) := by
  cases hev : args.evm_proof with
  | none =>
    simp only [driver_prove, hev] at h
    exact ⟨by simp [hev], driver_state_stage_ok_inv env args [] h⟩
  | some bq =>
    cases hr : env.evm_result with
    | error e => simp [driver_prove, hev, hr] at h
    | ok x =>
      refine ⟨fun _ => ⟨x, rfl⟩, ?_⟩
      cases bq with
      | false =>
        simp only [driver_prove, hev, hr] at h
        exact driver_state_stage_ok_inv env args _ h
      | true =>
        cases hw : env.write_ok with
        | false => simp [driver_prove, hev, hr, hw] at h
        | true =>
          simp only [driver_prove, hev, hr, hw, if_true] at h
          exact driver_state_stage_ok_inv env args _ h

/-- C9: in a fault-free run, each of the `--evm`, `--state` and `--agg`
artifacts is proved exactly when its flag is present, and written to disk
exactly when its flag's boolean is true; a failing evm prover call panics the
run immediately and the later artifacts are never attempted; and whenever the
run completes, every flagged artifact's prover call succeeded, so a proving
failure is never skipped. -/
theorem driver_flag_semantics (env : DriverEnv) (args : Args) :
    (env.allOk →
      ((DriverEvent.proveEvm ∈ (driver_prove env args).events ↔ args.evm_proof.isSome) ∧
       (DriverEvent.writeEvm ∈ (driver_prove env args).events ↔ args.evm_proof = some true) ∧
       (DriverEvent.proveState ∈ (driver_prove env args).events ↔ args.state_proof.isSome) ∧
       (DriverEvent.writeState ∈ (driver_prove env args).events ↔ args.state_proof = some true) ∧
       (DriverEvent.proveAgg ∈ (driver_prove env args).events ↔ args.agg_proof.isSome) ∧
       (DriverEvent.writeAgg ∈ (driver_prove env args).events ↔ args.agg_proof = some true))) ∧
    (∀ e, args.evm_proof.isSome → env.evm_result = Except.error e →
      (driver_prove env args).result = Outcome.panic "cannot generate evm_proof" ∧
      DriverEvent.proveState ∉ (driver_prove env args).events ∧
      DriverEvent.proveAgg ∉ (driver_prove env args).events) ∧
    ((driver_prove env args).result = Outcome.ok () →
      ((args.evm_proof.isSome → ∃ x, env.evm_result = Except.ok x) ∧
       (args.state_proof.isSome → ∃ x, env.state_result = Except.ok x) ∧
       (args.agg_proof.isSome → ∃ x, env.agg_result = Except.ok x))) := by
  refine ⟨?_, ?_, driver_prove_ok_inv env args⟩
  · intro h
    rw [driver_prove_allOk env args h]
    rcases args with ⟨eo, so, ao⟩
    rcases eo with _ | (_ | _) <;> rcases so with _ | (_ | _) <;> rcases ao with _ | (_ | _) <;>
      simp [flagEvents]
  · intro e hsome herr
    obtain ⟨bq, hbq⟩ := Option.isSome_iff_exists.mp hsome
    refine ⟨?_, ?_, ?_⟩ <;> simp [driver_prove, hbq, herr]

/-- Concrete fault-free driver environment. -/
def envOk : DriverEnv :=
  { evm_result := Except.ok [1], state_result := Except.ok [2],
    agg_result := Except.ok aggOut0, write_ok := true }

/-- Concrete environment whose evm prover call fails. -/
def envEvmErr : DriverEnv :=
  { envOk with evm_result := Except.error "bad trace" }

/-- Concrete argument vector: prove and write evm, prove state without
writing it, skip agg. -/
def argsAll : Args :=
  { evm_proof := some true, state_proof := some false, agg_proof := none }

/-- Witness for C9 at a concrete environment and argument vector, exercising
both the fault-free clause and the evm-failure clause. -/
theorem driver_flag_semantics_witness :
    (DriverEvent.proveEvm ∈ (driver_prove envOk argsAll).events ↔ argsAll.evm_proof.isSome) ∧
    (DriverEvent.writeState ∈ (driver_prove envOk argsAll).events ↔
      argsAll.state_proof = some true) ∧
    (driver_prove envEvmErr argsAll).result = Outcome.panic "cannot generate evm_proof" := by
  have hOk : envOk.allOk := ⟨⟨[1], rfl⟩, ⟨[2], rfl⟩, ⟨aggOut0, rfl⟩, rfl⟩
  have h1 := (driver_flag_semantics envOk argsAll).1 hOk
  have h2 := (driver_flag_semantics envEvmErr argsAll).2.1 "bad trace" (by decide) rfl
  exact ⟨h1.1, h1.2.2.2.1, h2.1⟩

end ZkEvm
